import Mathlib

/-!
# Trip-record chaincode (goapp/trip-info.go)

A shallow embedding of the three operations of the insurance chaincode:
`QueryTrip`, `initTrip` and `addCoverageDetails`.

Modelling decisions.

* The ledger stub (`shim.ChaincodeStubInterface`) lives outside the repository.
  It is modelled as a key-value world (`Ledger`) with a public world state and
  named private-data collections, together with a `Faults` oracle that says
  which accesses return a Go `error`. A Go `nil` slice returned by a read is
  `none`. In the public world state a key whose value is the empty byte string
  is a key without entry: `PutState` with an empty value deletes the key, and
  the read of a key without entry returns `nil`. A private-data write keeps
  the value it is given. A failed write leaves the world as it was.
* `encoding/json` also lives outside the repository. `json.Unmarshal` and
  `json.Marshal` are the two fields of the parameter `Json`; every general
  theorem holds for every such pair of functions. `Unmarshal data v` returns
  the value left in the target `v` together with the Go error, so that a
  caller who discards the error still sees what the target holds.
* In the struct declarations of lines 18-91 every field name but `ObjectType`
  is lowercase, and the library reads and writes exported fields only. The
  general theorems hold for every `Json`; wherever the program is run on a
  concrete input the library is `tableJson`, which touches `ObjectType` alone:
  decoding leaves `tripId` and all other lowercase fields as the target had
  them, and encoding gives the object with the single member `docType`.
* Go errors are kept structured: one constructor of `Err` per place of the
  source that creates an error, `Err.Error` renders the message of the source
  and `Err.kind` names the error kind of the specification it stands for.
* `float32` values are only copied by the program; they are carried as their
  IEEE-754 bit pattern. Go `int` values are only copied too and are `Int`.
-/

namespace TripInfo

/-! ## Data model (trip-info.go, lines 18-91) -/

/-- One byte of a Go byte slice. -/
abbrev Byte := Fin 256

/-- A Go byte slice that is not nil. -/
abbrev Bytes := List Byte

/-- A Go float32, as its bit pattern; the program never computes with it. -/
structure GoFloat32 where
  bits : Nat := 0
  deriving DecidableEq, Repr

/-- Source type Point; the default of every field is its Go zero value. -/
structure Point where
  name : String := ""
  address : String := ""
  city : String := ""
  state : String := ""
  country : String := ""
  zipcode : String := ""
  saveAddressFlag : Bool := false
  deriving DecidableEq, Repr

/-- Source type TripStatus. -/
structure TripStatus where
  plannedStartTimestamp : String := ""
  projectedEndTimestamp : String := ""
  estimatedDistance : GoFloat32 := {}
  distanceMeasurement : String := ""
  estimatedDuration : String := ""
  deriving DecidableEq, Repr

/-- Source type VehicleDetails. -/
structure VehicleDetails where
  identificationNumber : String := ""
  vehicleType : String := ""
  driverName : String := ""
  driverLicenseId : String := ""
  deriving DecidableEq, Repr

/-- Source type UserDetails. -/
structure UserDetails where
  accessID : String := ""
  orgName : String := ""
  billingAddress : String := ""
  deriving DecidableEq, Repr

/-- Source type PolicyDetails. -/
structure PolicyDetails where
  masterPolicyId : String := ""
  effectiveDate : String := ""
  expiryDate : String := ""
  deriving DecidableEq, Repr

/-- Source type InvoiceDetails. -/
structure InvoiceDetails where
  number : Int := 0
  date : String := ""
  deriving DecidableEq, Repr

/-- Source type CoverageDetails. -/
structure CoverageDetails where
  coverageStatus : String := ""
  coverageType : String := ""
  premium : Int := 0
  coverageAmount : GoFloat32 := {}
  coverageThresholdValue : Int := 0
  factorsCovered : List String := []
  deriving DecidableEq, Repr

/-- Source type TripDetails, the trip record. -/
structure TripDetails where
  ObjectType : String := ""
  tripId : String := ""
  payoutStatus : String := ""
  tripStatus : TripStatus := {}
  startingPoint : Point := {}
  finalDestination : Point := {}
  vehicleDetails : VehicleDetails := {}
  coverageDetails : CoverageDetails := {}
  userDetails : UserDetails := {}
  policyDetails : PolicyDetails := {}
  invoiceDetails : InvoiceDetails := {}
  deriving DecidableEq, Repr

/-- Source type CoverageInfo, the coverage update request. -/
structure CoverageInfo where
  ObjectType : String := ""
  tripId : String := ""
  coverageDetails : CoverageDetails := {}
  userDetails : UserDetails := {}
  policyDetails : PolicyDetails := {}
  invoiceDetails : InvoiceDetails := {}
  deriving DecidableEq, Repr

/-- The record a Go declaration without initialiser holds: every field zero. -/
def TripDetails.zero : TripDetails := {}

/-! ## The two collaborators: the JSON library and the ledger stub -/

/-- The two functions of encoding/json the program calls, at the type
TripDetails. Unmarshal returns what the target holds afterwards and the error;
Marshal returns the bytes and the error. -/
structure Json where
  Unmarshal : Bytes → TripDetails → TripDetails × Option String
  Marshal : TripDetails → Bytes × Option String

/-- The world the stub reads and writes: the public world state and the
private-data collections (collection name, then key). In the public world
state the empty byte string is the value of a key without entry. -/
structure Ledger where
  state : String → Bytes
  privateData : String → String → Option Bytes

/-- Which stub accesses fail, and with which error text; none means the
access goes through. -/
structure Faults where
  GetState : String → Option String
  PutState : String → Bytes → Option String
  GetPrivateData : String → String → Option String
  PutPrivateData : String → String → Bytes → Option String

/-- The stub with every access going through. -/
def noFaults : Faults where
  GetState := fun _ => none
  PutState := fun _ _ => none
  GetPrivateData := fun _ _ => none
  PutPrivateData := fun _ _ _ => none

/-- The ledger with no entry at all. -/
def emptyLedger : Ledger where
  state := fun _ => []
  privateData := fun _ _ => none

/-- Stub call GetState(key): the bytes (none is the nil slice, returned for a
key without entry) or the error. -/
def GetState (f : Faults) (w : Ledger) (key : String) : Except String (Option Bytes) :=
  match f.GetState key with
  | some e => .error e
  | none =>
    match w.state key with
    | [] => .ok none
    | b :: bs => .ok (some (b :: bs))

/-- Stub call PutState(key, value): the error (none is nil) and the world
after. An empty value leaves the key without entry. -/
def PutState (f : Faults) (w : Ledger) (key : String) (value : Bytes) :
    Option String × Ledger :=
  match f.PutState key value with
  | some e => (some e, w)
  | none => (none, { w with state := fun k => if k = key then value else w.state k })

/-- Stub call GetPrivateData(collection, key). -/
def GetPrivateData (f : Faults) (w : Ledger) (collection key : String) :
    Except String (Option Bytes) :=
  match f.GetPrivateData collection key with
  | some e => .error e
  | none => .ok (w.privateData collection key)

/-- Stub call PutPrivateData(collection, key, value). -/
def PutPrivateData (f : Faults) (w : Ledger) (collection key : String) (value : Bytes) :
    Option String × Ledger :=
  match f.PutPrivateData collection key value with
  | some e => (some e, w)
  | none =>
    (none, { w with privateData := fun c k =>
      if c = collection ∧ k = key then some value else w.privateData c k })

/-! ## Errors -/

/-- The errors the program creates, one constructor per place of the source. -/
inductive Err where
  /-- QueryTrip, line 102: the read of the world state failed. -/
  | worldState (cause : String)
  /-- QueryTrip, line 106: the read returned nil. -/
  | doesNotExist (tripId : String)
  /-- Function initTrip, line 121: tripInfo.json could not be opened. -/
  | openFile (cause : String)
  /-- Function initTrip, line 133: the read of the private collection failed. -/
  | getTripDetails (cause : String)
  /-- Function initTrip, line 136: the private collection has the key. -/
  | alreadyExists (tripId : String)
  /-- Function initTrip, line 141: the write of the private collection failed. -/
  | putPrivateData (cause : String)
  /-- Function addCoverageDetails, line 158: the error of PutState, returned as it is. -/
  | putState (cause : String)
  deriving DecidableEq, Repr

/-- The message of the source for each error. -/
def Err.Error : Err → String
  | .worldState cause => "Failed to read from world state. " ++ cause
  | .doesNotExist tripId => tripId ++ " does not exist"
  | .openFile cause => cause
  | .getTripDetails cause => "Failed to get trip details: " ++ cause
  | .alreadyExists tripId => "This trip already exists: " ++ tripId
  | .putPrivateData cause => cause
  | .putState cause => cause

/-- The error kinds of the specification. -/
inductive ErrorKind where
  | NotFound
  | AlreadyExists
  | DecodeError
  | StoreError
  deriving DecidableEq, Repr

/-- The kind each error of the program stands for. No place of the source
creates an error for a failed decode, so no error has kind DecodeError. -/
def Err.kind : Err → ErrorKind
  | .worldState _ => .StoreError
  | .doesNotExist _ => .NotFound
  | .openFile _ => .StoreError
  | .getTripDetails _ => .StoreError
  | .alreadyExists _ => .AlreadyExists
  | .putPrivateData _ => .StoreError
  | .putState _ => .StoreError

/-! ## The operations (trip-info.go, lines 98-159) -/

/-- Source function QueryTrip (lines 98-113). The error of json.Unmarshal is
assigned to the blank identifier; the record returned is what the target
holds after the call. -/
def QueryTrip (json : Json) (f : Faults) (w : Ledger) (tripId : String) :
    Except Err TripDetails :=
  match GetState f w tripId with
  | .error err => .error (.worldState err)
  | .ok none => .error (.doesNotExist tripId)
  | .ok (some tripAsBytes) =>
    let tripDetails := (json.Unmarshal tripAsBytes TripDetails.zero).1
    .ok tripDetails

/-- Source function initTrip (lines 115-146). The argument tripInfo is what
os.Open and ioutil.ReadAll give for tripInfo.json: the error of Open, or the
bytes read. The result of json.Unmarshal is not looked at. The first
component is the response (ok for shim.Success(nil)), the second the world
after the call. -/
def initTrip (json : Json) (f : Faults) (w : Ledger) (tripInfo : Except String Bytes) :
    Except Err Unit × Ledger :=
  match tripInfo with
  | .error err => (.error (.openFile err), w)
  | .ok tripJSONBytes =>
    let tripDetails := (json.Unmarshal tripJSONBytes TripDetails.zero).1
    match GetPrivateData f w "tripDetails" tripDetails.tripId with
    | .error err => (.error (.getTripDetails err), w)
    | .ok (some _) => (.error (.alreadyExists tripDetails.tripId), w)
    | .ok none =>
      match PutPrivateData f w "tripDetails" tripDetails.tripId tripJSONBytes with
      | (some err, w1) => (.error (.putPrivateData err), w1)
      | (none, w1) => (.ok (), w1)

/-- Source function addCoverageDetails (lines 148-159). The error of
json.Marshal is assigned to the blank identifier. The first component is the
error returned (ok for nil), the second the world after the call. -/
def addCoverageDetails (json : Json) (f : Faults) (w : Ledger) (coverageInfo : CoverageInfo) :
    Except Err Unit × Ledger :=
  match QueryTrip json f w coverageInfo.tripId with
  | .error err => (.error err, w)
  | .ok tripDetails =>
    let tripDetails := { tripDetails with coverageDetails := coverageInfo.coverageDetails }
    let tripAsBytes := (json.Marshal tripDetails).1
    match PutState f w tripDetails.tripId tripAsBytes with
    | (some err, w1) => (.error (.putState err), w1)
    | (none, w1) => (.ok (), w1)

/-! ## Concrete inputs -/

/-- The bytes json.Marshal gives for a record whose ObjectType is the given
text: the object with the single member docType. Exact for a text of ASCII
characters that JSON writes without escape. -/
def encodeDocType (docType : String) : Bytes :=
  [123, 34, 100, 111, 99, 84, 121, 112, 101, 34, 58, 34] ++
    docType.toList.map (fun c => Fin.ofNat c.toNat) ++ [34, 125]

/-- The JSON library on the struct TripDetails, described on finitely many
inputs. Each listed byte string is a JSON object, listed with the value of
its member docType when it has one. Decoding a listed input stores that
value, if any, in ObjectType and reports no error; decoding any other input
reports an error. In both cases every lowercase field of the target is left
as it was. Encoding gives the object with the single member docType. -/
def tableJson (table : List (Bytes × Option String)) : Json where
  Unmarshal := fun data v =>
    match table.find? (fun e => decide (e.1 = data)) with
    | some (_, some docType) => ({ v with ObjectType := docType }, none)
    | some (_, none) => (v, none)
    | none => (v, some "invalid character")
  Marshal := fun v => (encodeDocType v.ObjectType, none)

/-- The ASCII bytes of the JSON object with the one member tripId, of value T1. -/
def bytesT1 : Bytes := [123, 34, 116, 114, 105, 112, 73, 100, 34, 58, 34, 84, 49, 34, 125]

/-- The ASCII bytes of the JSON object with the members tripId, of value T1,
and payoutStatus, of value PAID: a second record with the trip id of bytesT1. -/
def bytesT1Paid : Bytes :=
  [123, 34, 116, 114, 105, 112, 73, 100, 34, 58, 34, 84, 49, 34, 44,
   34, 112, 97, 121, 111, 117, 116, 83, 116, 97, 116, 117, 115, 34, 58,
   34, 80, 65, 73, 68, 34, 125]

/-- The ASCII bytes of the JSON object with the one member tripId, of value T2. -/
def bytesT2 : Bytes := [123, 34, 116, 114, 105, 112, 73, 100, 34, 58, 34, 84, 50, 34, 125]

/-- The ASCII bytes of the JSON object with tripId T1, vehicleDetails of
identificationNumber V1 and coverageDetails of coverageStatus PENDING. -/
def bytesV1Pending : Bytes :=
  [123, 34, 116, 114, 105, 112, 73, 100, 34, 58, 34, 84, 49, 34, 44, 34,
   118, 101, 104, 105, 99, 108, 101, 68, 101, 116, 97, 105, 108, 115, 34,
   58, 123, 34, 105, 100, 101, 110, 116, 105, 102, 105, 99, 97, 116, 105,
   111, 110, 78, 117, 109, 98, 101, 114, 34, 58, 34, 86, 49, 34, 125, 44,
   34, 99, 111, 118, 101, 114, 97, 103, 101, 68, 101, 116, 97, 105, 108,
   115, 34, 58, 123, 34, 99, 111, 118, 101, 114, 97, 103, 101, 83, 116, 97,
   116, 117, 115, 34, 58, 34, 80, 69, 78, 68, 73, 78, 71, 34, 125, 125]

/-- The ASCII bytes of the JSON object with the one member docType, of value
the empty string: what json.Marshal gives for a record whose ObjectType is
empty. -/
def bytesDocTypeOnly : Bytes := [123, 34, 100, 111, 99, 84, 121, 112, 101, 34, 58, 34, 34, 125]

/-- The library on the sample records: bytesT1, bytesT1Paid, bytesT2 and
bytesV1Pending are objects without a member docType, bytesDocTypeOnly has the
member docType with the empty string. -/
def sampleJson : Json :=
  tableJson [(bytesT1, none), (bytesT1Paid, none), (bytesT2, none),
    (bytesV1Pending, none), (bytesDocTypeOnly, some "")]

/-- A ledger whose restricted collection holds bytesT1 under T1 and nothing else. -/
def ledgerCreatedT1 : Ledger where
  state := fun _ => []
  privateData := fun c k => if c = "tripDetails" ∧ k = "T1" then some bytesT1 else none

/-- A ledger whose shared partition holds bytesT1 under T1 and nothing else. -/
def ledgerPublishedT1 : Ledger where
  state := fun k => if k = "T1" then bytesT1 else []
  privateData := fun _ _ => none

/-- A ledger whose shared partition holds bytesV1Pending under T1 and nothing else. -/
def ledgerPublishedV1 : Ledger where
  state := fun k => if k = "T1" then bytesV1Pending else []
  privateData := fun _ _ => none

/-- A coverage update for T1 that sets the coverage status to APPROVED. -/
def requestApproved : CoverageInfo :=
  { tripId := "T1", coverageDetails := { coverageStatus := "APPROVED" } }

/-- The update of requestApproved with user, policy and invoice details filled in. -/
def requestApprovedFull : CoverageInfo :=
  { tripId := "T1",
    coverageDetails := { coverageStatus := "APPROVED" },
    userDetails := { accessID := "u-17", orgName := "Acme", billingAddress := "1 Main St" },
    policyDetails := { masterPolicyId := "MP-9", effectiveDate := "2020-01-01",
                       expiryDate := "2021-01-01" },
    invoiceDetails := { number := 42, date := "2020-02-02" } }

/-- The coverage update of the end-to-end scenario: T1, APPROVED, premium 500. -/
def requestApproved500 : CoverageInfo :=
  { tripId := "T1", coverageDetails := { coverageStatus := "APPROVED", premium := 500 } }

/-- The first ten ASCII bytes of the text of bytesT1: the object is cut off
after the colon, so the text is no JSON value. -/
def bytesTruncated : Bytes := [123, 34, 116, 114, 105, 112, 73, 100, 34, 58]

/-- A ledger whose shared partition holds bytesTruncated under T1. -/
def ledgerTruncatedEntry : Ledger where
  state := fun k => if k = "T1" then bytesTruncated else []
  privateData := fun _ _ => none

/-- A library that rejects every input and leaves the target as it was. -/
def jsonStrict : Json := tableJson []

/-! ## Lemmas on the stub -/

/-- A write of private data leaves the public world state as it was. -/
theorem PutPrivateData_state (f : Faults) (w : Ledger) (collection key : String)
    (value : Bytes) : (PutPrivateData f w collection key value).2.state = w.state := by
  unfold PutPrivateData
  split <;> rfl

/-- Function initTrip leaves the public world state as it was. -/
theorem initTrip_state (json : Json) (f : Faults) (w : Ledger)
    (tripInfo : Except String Bytes) : (initTrip json f w tripInfo).2.state = w.state := by
  unfold initTrip
  cases tripInfo with
  | error err => rfl
  | ok tripJSONBytes =>
    simp only
    split
    · rfl
    · rfl
    · rename_i hget
      have hst := PutPrivateData_state f w "tripDetails"
        (json.Unmarshal tripJSONBytes TripDetails.zero).1.tripId tripJSONBytes
      split
      · rename_i err w1 hput
        rw [hput] at hst
        exact hst
      · rename_i w1 hput
        rw [hput] at hst
        exact hst

/-- A query whose read goes through and finds no entry answers that the trip
does not exist. -/
theorem QueryTrip_of_absent (json : Json) (f : Faults) (w : Ledger) (tripId : String)
    (hread : f.GetState tripId = none) (habsent : w.state tripId = []) :
    QueryTrip json f w tripId = .error (.doesNotExist tripId) := by
  simp only [QueryTrip, GetState, hread, habsent]

/-- A query of a key without entry returns no record, whatever the stub does. -/
theorem QueryTrip_no_record (json : Json) (g : Faults) (w : Ledger) (tripId : String)
    (habsent : w.state tripId = []) (tripDetails : TripDetails) :
    QueryTrip json g w tripId ≠ .ok tripDetails := by
  simp only [QueryTrip, GetState, habsent]
  cases g.GetState tripId <;> simp

/-- Decoding with tableJson leaves the trip id of the target as it was. -/
theorem tableJson_Unmarshal_tripId (table : List (Bytes × Option String)) (data : Bytes)
    (v : TripDetails) : ((tableJson table).Unmarshal data v).1.tripId = v.tripId := by
  simp only [tableJson]
  split <;> rfl

/-! ## Creation -/

/-- C1 fails on the code: the restricted collection holds a record under T1
and the input record carries the trip id T1, yet the decoder leaves
tripDetails.tripId empty (the field is lowercase), the check reads the empty
key, finds nothing, and initTrip succeeds and writes the input under the
empty key. -/
theorem initTrip_misses_existing_record :
    ledgerCreatedT1.privateData "tripDetails" "T1" = some bytesT1 ∧
      ledgerCreatedT1.privateData "tripDetails" "" = none ∧
      sampleJson.Unmarshal bytesT1Paid TripDetails.zero = (TripDetails.zero, none) ∧
      (initTrip sampleJson noFaults ledgerCreatedT1 (.ok bytesT1Paid)).1 = .ok () ∧
      (initTrip sampleJson noFaults ledgerCreatedT1 (.ok bytesT1Paid)).2.privateData
        "tripDetails" "" = some bytesT1Paid := by
  refine ⟨by decide, by decide, rfl, rfl, by decide⟩

/-- C2 fails on the code: two records of trip id T1 are created in turn from
the empty ledger. The first call succeeds and the second is refused, but the
refusal names the empty id, nothing is stored under T1 and the first input
sits under the empty key, so that a record of the other id T2 is refused
too. -/
theorem initTrip_twice_files_under_empty_key :
    (initTrip sampleJson noFaults emptyLedger (.ok bytesT1)).1 = .ok () ∧
      (initTrip sampleJson noFaults (initTrip sampleJson noFaults emptyLedger (.ok bytesT1)).2
        (.ok bytesT1Paid)).1 = .error (.alreadyExists "") ∧
      (initTrip sampleJson noFaults (initTrip sampleJson noFaults emptyLedger (.ok bytesT1)).2
        (.ok bytesT1Paid)).2.privateData "tripDetails" "T1" = none ∧
      (initTrip sampleJson noFaults (initTrip sampleJson noFaults emptyLedger (.ok bytesT1)).2
        (.ok bytesT1Paid)).2.privateData "tripDetails" "" = some bytesT1 ∧
      (initTrip sampleJson noFaults (initTrip sampleJson noFaults emptyLedger (.ok bytesT1)).2
        (.ok bytesT2)).1 = .error (.alreadyExists "") := by
  refine ⟨rfl, rfl, by decide, by decide, rfl⟩

/-- C3: initTrip never writes the shared partition, whatever its input and
whatever the stub does. When the shared partition has no entry under a trip
id, that of the record in particular, and initTrip succeeds, a QueryTrip for
that id answers "does not exist" (kind NotFound) and under no stub returns a
record, although the restricted collection now holds the record, under the
id the decoder left in tripDetails.tripId. -/
theorem initTrip_not_published (json : Json) (f : Faults) (w : Ledger)
    (tripId : String) (tripJSONBytes : Bytes)
    (hshared : w.state tripId = [])
    (hcreated : (initTrip json f w (.ok tripJSONBytes)).1 = .ok ()) :
    (∀ tripInfo, (initTrip json f w tripInfo).2.state = w.state) ∧
      QueryTrip json noFaults (initTrip json f w (.ok tripJSONBytes)).2 tripId =
        .error (.doesNotExist tripId) ∧
      Err.kind (.doesNotExist tripId) = ErrorKind.NotFound ∧
      (∀ g tripDetails,
        QueryTrip json g (initTrip json f w (.ok tripJSONBytes)).2 tripId ≠ .ok tripDetails) ∧
      (initTrip json f w (.ok tripJSONBytes)).2.privateData "tripDetails"
        (json.Unmarshal tripJSONBytes TripDetails.zero).1.tripId = some tripJSONBytes := by
  have hafter : (initTrip json f w (.ok tripJSONBytes)).2.state tripId = [] := by
    rw [initTrip_state]; exact hshared
  refine ⟨fun tripInfo => initTrip_state json f w tripInfo, ?_, rfl, ?_, ?_⟩
  · exact QueryTrip_of_absent json noFaults _ tripId rfl hafter
  · intro g tripDetails
    exact QueryTrip_no_record json g _ tripId hafter tripDetails
  · revert hcreated
    simp only [initTrip]
    cases hget : GetPrivateData f w "tripDetails"
        (json.Unmarshal tripJSONBytes TripDetails.zero).1.tripId with
    | error err => simp
    | ok existing =>
      cases existing with
      | some val => simp
      | none =>
        cases hput : f.PutPrivateData "tripDetails"
            (json.Unmarshal tripJSONBytes TripDetails.zero).1.tripId tripJSONBytes <;>
          simp [PutPrivateData, hput]

/-- Witness of C3: the record bytesT1, of trip id T1, is created in the empty
ledger; the query for T1 answers "does not exist" and the record sits in the
restricted collection, under the empty key. -/
theorem initTrip_not_published_witness :
    QueryTrip sampleJson noFaults (initTrip sampleJson noFaults emptyLedger (.ok bytesT1)).2
        "T1" = .error (.doesNotExist "T1") ∧
      (initTrip sampleJson noFaults emptyLedger (.ok bytesT1)).2.privateData
        "tripDetails" "" = some bytesT1 :=
  have h := initTrip_not_published sampleJson noFaults emptyLedger "T1" bytesT1 rfl rfl
  ⟨h.2.1, h.2.2.2.2⟩

/-! ## Coverage merge -/

/-- C4 fails on the code: the shared partition holds under T1 a record of VIN
V1 and coverage status PENDING, the request sets the status to APPROVED. The
decoder skips the lowercase fields, so QueryTrip resolves the zero-valued
record (no VIN V1); the encoder gives the object with docType alone, so the
bytes written carry neither the VIN nor the status APPROVED; the entry under
T1 is left as it was, and a query for T1 after the merge still resolves the
zero-valued record. -/
theorem addCoverageDetails_drops_record_fields :
    QueryTrip sampleJson noFaults ledgerPublishedV1 requestApproved.tripId =
        .ok TripDetails.zero ∧
      TripDetails.zero.vehicleDetails.identificationNumber = "" ∧
      (addCoverageDetails sampleJson noFaults ledgerPublishedV1 requestApproved).1 = .ok () ∧
      sampleJson.Marshal
          { TripDetails.zero with coverageDetails := requestApproved.coverageDetails } =
        (bytesDocTypeOnly, none) ∧
      (addCoverageDetails sampleJson noFaults ledgerPublishedV1 requestApproved).2.state "T1" =
        bytesV1Pending ∧
      QueryTrip sampleJson noFaults
          (addCoverageDetails sampleJson noFaults ledgerPublishedV1 requestApproved).2 "T1" =
        .ok TripDetails.zero ∧
      TripDetails.zero.coverageDetails.coverageStatus = "" := by
  refine ⟨rfl, rfl, rfl, rfl, by decide, rfl, rfl⟩

/-- C5 fails on the code: the shared partition holds a record of trip id T1
under T1 and the merge for T1 succeeds, yet the key written is the trip id
the decoder left, the empty string: the entry under T1, the key that was
read, is what it was, and the empty key, which had no entry, now holds the
encoded record. -/
theorem addCoverageDetails_writes_empty_key :
    (addCoverageDetails sampleJson noFaults ledgerPublishedT1 requestApproved).1 = .ok () ∧
      ledgerPublishedT1.state "T1" = bytesT1 ∧
      (addCoverageDetails sampleJson noFaults ledgerPublishedT1 requestApproved).2.state "T1" =
        bytesT1 ∧
      ledgerPublishedT1.state "" = [] ∧
      (addCoverageDetails sampleJson noFaults ledgerPublishedT1 requestApproved).2.state "" =
        bytesDocTypeOnly := by
  refine ⟨rfl, by decide, by decide, by decide, by decide⟩

/-- C7: when QueryTrip fails for the trip id of the request, whatever the
error, addCoverageDetails returns that very error and the world after the
call is the world before it, in both partitions. -/
theorem addCoverageDetails_query_error (json : Json) (f : Faults) (w : Ledger)
    (coverageInfo : CoverageInfo) (err : Err)
    (hfails : QueryTrip json f w coverageInfo.tripId = .error err) :
    (addCoverageDetails json f w coverageInfo).1 = .error err ∧
      (addCoverageDetails json f w coverageInfo).2.state = w.state ∧
      (addCoverageDetails json f w coverageInfo).2.privateData = w.privateData := by
  refine ⟨?_, ?_, ?_⟩ <;> simp only [addCoverageDetails, hfails]

/-- Witness of C7: a merge for T1 on the empty ledger, where QueryTrip answers
"does not exist". -/
theorem addCoverageDetails_query_error_witness :
    QueryTrip sampleJson noFaults emptyLedger requestApproved.tripId =
        .error (.doesNotExist "T1") ∧
      (addCoverageDetails sampleJson noFaults emptyLedger requestApproved).1 =
        .error (.doesNotExist "T1") ∧
      (addCoverageDetails sampleJson noFaults emptyLedger requestApproved).2.state =
        emptyLedger.state ∧
      (addCoverageDetails sampleJson noFaults emptyLedger requestApproved).2.privateData =
        emptyLedger.privateData :=
  ⟨rfl, addCoverageDetails_query_error sampleJson noFaults emptyLedger requestApproved
    (.doesNotExist "T1") rfl⟩

/-- C10: two requests with the same trip id and the same coverage details,
whatever their user, policy and invoice details (and document type), give the
same result and the same world, from every world and under every stub. -/
theorem addCoverageDetails_coverage_only (json : Json) (f : Faults) (w : Ledger)
    (a b : CoverageInfo) (hid : a.tripId = b.tripId)
    (hcoverage : a.coverageDetails = b.coverageDetails) :
    addCoverageDetails json f w a = addCoverageDetails json f w b := by
  simp only [addCoverageDetails, hid, hcoverage]

/-- Witness of C10: requestApproved and requestApprovedFull differ in their
user, policy and invoice details only. -/
theorem addCoverageDetails_coverage_only_witness :
    requestApproved.userDetails ≠ requestApprovedFull.userDetails ∧
      requestApproved.policyDetails ≠ requestApprovedFull.policyDetails ∧
      requestApproved.invoiceDetails ≠ requestApprovedFull.invoiceDetails ∧
      addCoverageDetails sampleJson noFaults ledgerPublishedV1 requestApproved =
        addCoverageDetails sampleJson noFaults ledgerPublishedV1 requestApprovedFull :=
  ⟨by decide, by decide, by decide,
    addCoverageDetails_coverage_only sampleJson noFaults ledgerPublishedV1 requestApproved
      requestApprovedFull rfl rfl⟩

/-! ## The end-to-end scenario -/

/-- C6, as stated, fails: after T1 is created in the empty ledger the merge
for T1 (APPROVED, premium 500) does not succeed, whatever the JSON library and
whatever the bytes of the record; with the record bytesT1 the create
succeeds, the merge answers "T1 does not exist" and the query after it still
answers "T1 does not exist". -/
theorem addCoverageDetails_after_initTrip_fails :
    (¬ ∃ (json : Json) (tripJSONBytes : Bytes),
        (addCoverageDetails json noFaults
          (initTrip json noFaults emptyLedger (.ok tripJSONBytes)).2 requestApproved500).1 =
          .ok ()) ∧
      (initTrip sampleJson noFaults emptyLedger (.ok bytesT1)).1 = .ok () ∧
      (addCoverageDetails sampleJson noFaults
        (initTrip sampleJson noFaults emptyLedger (.ok bytesT1)).2 requestApproved500).1 =
        .error (.doesNotExist "T1") ∧
      QueryTrip sampleJson noFaults
        (addCoverageDetails sampleJson noFaults
          (initTrip sampleJson noFaults emptyLedger (.ok bytesT1)).2 requestApproved500).2
        "T1" = .error (.doesNotExist "T1") := by
  refine ⟨?_, rfl, rfl, rfl⟩
  rintro ⟨json, tripJSONBytes, h⟩
  have hquery := QueryTrip_of_absent json noFaults
    (initTrip json noFaults emptyLedger (.ok tripJSONBytes)).2 requestApproved500.tripId rfl
    (by rw [initTrip_state]; rfl)
  simp only [addCoverageDetails, hquery] at h
  cases h

/-- C6, amended: from a world whose shared partition has no entry under the
trip id, and with the accesses of the query and of the merge going through:
after initTrip of a record, whatever its response, QueryTrip answers "does
not exist" (kind NotFound); a merge for that id then returns that same error
and writes nothing; a following QueryTrip still answers "does not exist". -/
theorem scenario_merge_does_not_publish (json : Json) (f : Faults) (w : Ledger)
    (tripId : String) (tripJSONBytes : Bytes) (coverageInfo : CoverageInfo)
    (hrequest : coverageInfo.tripId = tripId)
    (hshared : w.state tripId = []) :
    QueryTrip json noFaults (initTrip json f w (.ok tripJSONBytes)).2 tripId =
        .error (.doesNotExist tripId) ∧
      Err.kind (.doesNotExist tripId) = ErrorKind.NotFound ∧
      addCoverageDetails json noFaults (initTrip json f w (.ok tripJSONBytes)).2
          coverageInfo =
        (.error (.doesNotExist tripId), (initTrip json f w (.ok tripJSONBytes)).2) ∧
      QueryTrip json noFaults
          (addCoverageDetails json noFaults (initTrip json f w (.ok tripJSONBytes)).2
            coverageInfo).2 tripId =
        .error (.doesNotExist tripId) := by
  have hquery : QueryTrip json noFaults (initTrip json f w (.ok tripJSONBytes)).2
      tripId = .error (.doesNotExist tripId) :=
    QueryTrip_of_absent json noFaults _ tripId rfl (by rw [initTrip_state]; exact hshared)
  have hmerge : addCoverageDetails json noFaults
      (initTrip json f w (.ok tripJSONBytes)).2 coverageInfo =
      (.error (.doesNotExist tripId), (initTrip json f w (.ok tripJSONBytes)).2) := by
    simp only [addCoverageDetails, hrequest, hquery]
  refine ⟨hquery, rfl, hmerge, ?_⟩
  rw [hmerge]
  exact hquery

/-- Witness of C6, amended: the scenario with T1, the record bytesT1 and the
update APPROVED with premium 500, from the empty ledger. -/
theorem scenario_merge_does_not_publish_witness :
    QueryTrip sampleJson noFaults (initTrip sampleJson noFaults emptyLedger (.ok bytesT1)).2
        "T1" = .error (.doesNotExist "T1") ∧
      Err.kind (.doesNotExist "T1") = ErrorKind.NotFound ∧
      addCoverageDetails sampleJson noFaults
          (initTrip sampleJson noFaults emptyLedger (.ok bytesT1)).2 requestApproved500 =
        (.error (.doesNotExist "T1"),
          (initTrip sampleJson noFaults emptyLedger (.ok bytesT1)).2) ∧
      QueryTrip sampleJson noFaults
          (addCoverageDetails sampleJson noFaults
            (initTrip sampleJson noFaults emptyLedger (.ok bytesT1)).2
            requestApproved500).2 "T1" =
        .error (.doesNotExist "T1") :=
  scenario_merge_does_not_publish sampleJson noFaults emptyLedger "T1" bytesT1
    requestApproved500 rfl rfl

/-! ## Query -/

/-- C8: a key of the shared partition without entry and a key whose value is
the empty byte string are the same world, since a write of the empty value
deletes the key. For such a key QueryTrip answers "does not exist" (kind
NotFound) and under no stub returns a record; and in the world left by a
write of the empty byte string under the trip id, whatever was there before,
QueryTrip answers "does not exist" as well. -/
theorem QueryTrip_absent_or_empty (json : Json) (w : Ledger) (tripId : String)
    (habsent : w.state tripId = []) :
    QueryTrip json noFaults w tripId = .error (.doesNotExist tripId) ∧
      Err.kind (.doesNotExist tripId) = ErrorKind.NotFound ∧
      (∀ g tripDetails, QueryTrip json g w tripId ≠ .ok tripDetails) ∧
      (∀ before : Ledger,
        QueryTrip json noFaults (PutState noFaults before tripId []).2 tripId =
          .error (.doesNotExist tripId)) ∧
      (∀ (before : Ledger) g tripDetails,
        QueryTrip json g (PutState noFaults before tripId []).2 tripId ≠ .ok tripDetails) := by
  have hdeleted : ∀ before : Ledger, (PutState noFaults before tripId []).2.state tripId = [] := by
    intro before
    simp [PutState, noFaults]
  refine ⟨QueryTrip_of_absent json noFaults w tripId rfl habsent, rfl, ?_, ?_, ?_⟩
  · intro g tripDetails
    exact QueryTrip_no_record json g w tripId habsent tripDetails
  · intro before
    exact QueryTrip_of_absent json noFaults _ tripId rfl (hdeleted before)
  · intro before g tripDetails
    exact QueryTrip_no_record json g _ tripId (hdeleted before) tripDetails

/-- Witness of C8: the key T2 has no entry in the ledger that holds a record
under T1, and the empty byte string is written over the record under T1. -/
theorem QueryTrip_absent_or_empty_witness :
    QueryTrip sampleJson noFaults ledgerPublishedT1 "T2" = .error (.doesNotExist "T2") ∧
      QueryTrip sampleJson noFaults ledgerPublishedT1 "T1" = .ok TripDetails.zero ∧
      QueryTrip sampleJson noFaults (PutState noFaults ledgerPublishedT1 "T1" []).2 "T1" =
        .error (.doesNotExist "T1") :=
  have h := QueryTrip_absent_or_empty sampleJson ledgerPublishedT1 "T2" (by decide)
  ⟨h.1, rfl, (QueryTrip_absent_or_empty sampleJson emptyLedger "T1" rfl).2.2.2.1
    ledgerPublishedT1⟩

/-! ## Decoding -/

/-- C9, as stated, fails: bytesTruncated is rejected by the decoder, which
leaves the target zero. QueryTrip on a ledger that holds these bytes under T1
returns the zero-valued record without error, and initTrip on these bytes
succeeds and writes them into the restricted collection under the trip id of
the zero-valued record, the empty string. -/
theorem decode_error_is_dropped :
    jsonStrict.Unmarshal bytesTruncated TripDetails.zero =
        (TripDetails.zero, some "invalid character") ∧
      QueryTrip jsonStrict noFaults ledgerTruncatedEntry "T1" = .ok TripDetails.zero ∧
      (initTrip jsonStrict noFaults emptyLedger (.ok bytesTruncated)).1 = .ok () ∧
      (initTrip jsonStrict noFaults emptyLedger (.ok bytesTruncated)).2.privateData
        "tripDetails" "" = some bytesTruncated := by
  refine ⟨rfl, rfl, rfl, ?_⟩
  decide

/-- C9, amended: decoding is lenient. No error of QueryTrip or of initTrip has
kind DecodeError. QueryTrip, when the read returns stored bytes, returns
without error the record the decoder leaves in a fresh target, also when the
decoder reports an error. When the decoder reports an error on the input of
initTrip, initTrip goes on with the trip id the decoder left: it answers
"already exists" without writing when the check finds an entry under that
id, and when the check finds none and the write goes through it succeeds and
the restricted collection holds the raw input under that id. -/
theorem decode_is_lenient (json : Json) (f : Faults) (w : Ledger) (tripId : String)
    (tripInfo : Except String Bytes) (tripJSONBytes : Bytes) :
    (∀ err, QueryTrip json f w tripId = .error err → err.kind ≠ ErrorKind.DecodeError) ∧
      (∀ err, (initTrip json f w tripInfo).1 = .error err →
        err.kind ≠ ErrorKind.DecodeError) ∧
      (∀ tripAsBytes, GetState f w tripId = .ok (some tripAsBytes) →
        QueryTrip json f w tripId = .ok (json.Unmarshal tripAsBytes TripDetails.zero).1) ∧
      (∀ decodeErr existing,
        (json.Unmarshal tripJSONBytes TripDetails.zero).2 = some decodeErr →
        GetPrivateData f w "tripDetails"
          (json.Unmarshal tripJSONBytes TripDetails.zero).1.tripId = .ok (some existing) →
        initTrip json f w (.ok tripJSONBytes) =
          (.error (.alreadyExists (json.Unmarshal tripJSONBytes TripDetails.zero).1.tripId),
            w)) ∧
      (∀ decodeErr,
        (json.Unmarshal tripJSONBytes TripDetails.zero).2 = some decodeErr →
        GetPrivateData f w "tripDetails"
          (json.Unmarshal tripJSONBytes TripDetails.zero).1.tripId = .ok none →
        f.PutPrivateData "tripDetails"
          (json.Unmarshal tripJSONBytes TripDetails.zero).1.tripId tripJSONBytes = none →
        (initTrip json f w (.ok tripJSONBytes)).1 = .ok () ∧
          (initTrip json f w (.ok tripJSONBytes)).2.privateData "tripDetails"
            (json.Unmarshal tripJSONBytes TripDetails.zero).1.tripId =
            some tripJSONBytes) := by
  refine ⟨?_, ?_, ?_, ?_, ?_⟩
  · intro err h
    simp only [QueryTrip] at h
    split at h
    · cases h; simp [Err.kind]
    · cases h; simp [Err.kind]
    · cases h
  · intro err h
    simp only [initTrip] at h
    split at h
    · cases h; simp [Err.kind]
    · split at h
      · cases h; simp [Err.kind]
      · cases h; simp [Err.kind]
      · split at h
        · cases h; simp [Err.kind]
        · cases h
  · intro tripAsBytes h
    simp only [QueryTrip, h]
  · intro decodeErr existing _ hfound
    simp only [initTrip, hfound]
  · intro decodeErr _ hnone hput
    simp [initTrip, hnone, PutPrivateData, hput]

end TripInfo
